import Mathlib

/-!
Verification of the TuneTudo authentication core.

Shallow embedding of the auth subsystem of the TuneTudo music-streaming
backend: the `AuthService` (registration, login, password-reset token
lifecycle, JWT issuance/validation), the auth controllers for the reset
endpoints, and the access-control middleware.

Modelling conventions:
* Time is an injected integer Unix timestamp `now` (the Go code calls
  `time.Now()`; the spec prescribes clock injection for testing).
* JWTs are modelled symbolically: a `SignedToken` records the signing
  algorithm, the claim set, and the key it was signed with; signature
  verification succeeds exactly when the verifying key equals the signing
  key.  JSON claim values are `JValue`s; JSON numbers are modelled as
  integers (user ids and Unix timestamps are integral).
* Fallible external collaborators (database rows, bcrypt, SMTP) are
  passed in as explicit outcome parameters, so every error branch of the
  Go code is a reachable branch of the model.
* The process-wide Go map `passwordResetStore` (keyed by email) is an
  association list keyed by email; the Go `range` iteration order is
  modelled as list order.
* Go `len` on a string counts bytes, hence `String.utf8ByteSize`.
-/

namespace TuneTudo

/-- JSON-style claim value, as stored in `jwt.MapClaims`
(`map[string]interface{}` in the Go source).  Numbers are modelled as
integers: every numeric claim the program writes (`user_id`, `iat`,
`exp`) is an integer. -/
inductive JValue where
  | jnum (n : Int)
  | jstr (s : String)
  | jbool (b : Bool)
deriving DecidableEq

/-- A claim set (`jwt.MapClaims`), as an association list. -/
abbrev MapClaims := List (String × JValue)

/-- Claim lookup (`claims["k"]`). -/
def lookupClaim (k : String) (cs : MapClaims) : Option JValue :=
  (cs.find? (fun p => p.1 == k)).map (·.2)

/-- JWT signing algorithms relevant to the validator's checks. -/
inductive SigAlg where
  | HS256
  | HS384
  | HS512
  | RS256
  | algNone
deriving DecidableEq

/-- The Go validator's key-function check:
`token.Method.(*jwt.SigningMethodHMAC)` succeeds for every HMAC variant
(HS256, HS384, HS512), not only HS256. -/
def SigAlg.isHMAC : SigAlg → Bool
  | .HS256 => true
  | .HS384 => true
  | .HS512 => true
  | _ => false

/-- A signed JWT, modelled symbolically: `key` is the secret it was
signed with; verification against `secret` succeeds iff `key = secret`. -/
structure SignedToken where
  alg : SigAlg
  claims : MapClaims
  key : String
deriving DecidableEq

/-- `models.User`, restricted to the fields the auth flows read
(`profile_image_path`, timestamps, etc. are never consulted by the
claims under verification). -/
structure User where
  id : Int
  username : String
  email : String
  passwordHash : String
  isAdmin : Bool
deriving DecidableEq

/-- `models.LoginRequest`. -/
structure LoginRequest where
  username : String
  password : String
deriving DecidableEq

/-- `models.RegisterRequest`. -/
structure RegisterRequest where
  username : String
  email : String
  password : String
deriving DecidableEq

/-- Seven days in seconds (`time.Hour * 24 * 7`). -/
def sevenDays : Int := 7 * 24 * 60 * 60

/-- `AuthService.GenerateToken`: builds the claim set
`{user_id, username, is_admin, exp = now + 7 days, iat = now}` and signs
it with HS256 under the service secret.  (The Go code calls `time.Now()`
twice for `exp` and `iat`; with injected time both read `now`.
`SignedString` failure cannot occur for an HMAC key and is modelled
total.) -/
def GenerateToken (secret : String) (now : Int) (user : User) : SignedToken :=
  { alg := .HS256
    claims := [("user_id", .jnum user.id),
               ("username", .jstr user.username),
               ("is_admin", .jbool user.isAdmin),
               ("exp", .jnum (now + sevenDays)),
               ("iat", .jnum now)]
    key := secret }

/-- `jwt.Parse` of golang-jwt/v4 as used by `ValidateToken`: the key
function rejects any non-HMAC signing method; the signature must verify
against the service secret; and the library's own claim validation
(`MapClaims.Valid`) rejects a present `exp` unless `now < exp`. -/
def jwtParse (secret : String) (now : Int) (t : SignedToken) :
    Except String MapClaims :=
  if ¬ t.alg.isHMAC then Except.error "invalid token signing method"
  else if t.key ≠ secret then Except.error "signature is invalid"
  else
    match lookupClaim "exp" t.claims with
    | some (.jnum e) =>
        if now < e then Except.ok t.claims else Except.error "token is expired"
    | some _ => Except.error "invalid type for claim: exp"
    | none => Except.ok t.claims

/-- `AuthService.ValidateToken`: any parse failure collapses to the
generic `"invalid or expired token"`; on parse success the service
independently re-checks `exp` (`time.Now().Unix() > int64(exp)`) and
returns `"token has expired"`, else the claims. -/
def ValidateToken (secret : String) (now : Int) (t : SignedToken) :
    Except String MapClaims :=
  match jwtParse secret now t with
  | Except.error _ => Except.error "invalid or expired token"
  | Except.ok claims =>
      match lookupClaim "exp" claims with
      | some (.jnum e) =>
          if now > e then Except.error "token has expired" else Except.ok claims
      | _ => Except.ok claims

/-- The service's expiry re-check composed with a signing library that
does NOT validate expiry (parse checks only algorithm and signature).
Used to show the re-check in `ValidateToken` is independent: it rejects
expired tokens even if the library had not. -/
def ValidateTokenNoLibExp (secret : String) (now : Int) (t : SignedToken) :
    Except String MapClaims :=
  if ¬ t.alg.isHMAC then Except.error "invalid or expired token"
  else if t.key ≠ secret then Except.error "invalid or expired token"
  else
    match lookupClaim "exp" t.claims with
    | some (.jnum e) =>
        if now > e then Except.error "token has expired" else Except.ok t.claims
    | _ => Except.ok t.claims

/-- The login query
`SELECT ... FROM users WHERE username = ? OR email = ?`:
first row whose username or email equals the identifier. -/
def findUserByUsernameOrEmail (db : List User) (ident : String) : Option User :=
  db.find? (fun u => u.username == ident || u.email == ident)

/-- `AuthService.LoginUser`: on no row or on bcrypt mismatch, the same
generic `"authorization failed"`; on success, issue a token and return
it with the user.  `verify hash password` models
`bcrypt.CompareHashAndPassword` returning nil.  (The best-effort
`last_login` update and the unreachable HMAC signing failure are not
observable in the returned value.) -/
def LoginUser (secret : String) (now : Int) (verify : String → String → Bool)
    (db : List User) (req : LoginRequest) :
    Except String (SignedToken × User) :=
  match findUserByUsernameOrEmail db req.username with
  | none => Except.error "authorization failed"
  | some user =>
      if verify user.passwordHash req.password then
        Except.ok (GenerateToken secret now user, user)
      else Except.error "authorization failed"

/-- Number of password-hasher invocations `LoginUser` performs, traced
from the source control flow: the `sql.ErrNoRows` branch returns before
`bcrypt.CompareHashAndPassword` is ever called; every found-user path
calls it exactly once. -/
def LoginUserHasherCalls (db : List User) (req : LoginRequest) : Nat :=
  match findUserByUsernameOrEmail db req.username with
  | none => 0
  | some _ => 1

/-- Outcome of a `QueryRow(...).Scan(...)` call: a row, `sql.ErrNoRows`,
or another database error. -/
inductive DbResult (α : Type) where
  | found (a : α)
  | noRows
  | dbError
deriving DecidableEq

/-- `PasswordResetToken` record of the store. -/
structure PasswordResetToken where
  token : String
  email : String
  expiresAt : Int
deriving DecidableEq

/-- The process-wide `passwordResetStore` map, keyed by email. -/
abbrev ResetStore := List (String × PasswordResetToken)

/-- `passwordResetStore[email]` read. -/
def storeLookup (email : String) (s : ResetStore) : Option PasswordResetToken :=
  (s.find? (fun p => p.1 == email)).map (·.2)

/-- `delete(passwordResetStore, email)`. -/
def storeErase (email : String) (s : ResetStore) : ResetStore :=
  s.filter (fun p => p.1 != email)

/-- `passwordResetStore[email] = v` (map assignment overwrites any prior
entry for that key). -/
def storeInsert (email : String) (v : PasswordResetToken) (s : ResetStore) :
    ResetStore :=
  (email, v) :: storeErase email s

/-- `AuthService.RequestPasswordReset`.  `dbRes` is the outcome of the
user lookup by email, `tokenGen` the outcome of `GenerateSecureToken`,
`sendOk` whether `SendPasswordResetEmail` succeeded.  On send failure
the freshly stored token is rolled back with a map delete. -/
def RequestPasswordReset (store : ResetStore) (now : Int)
    (dbRes : DbResult User) (tokenGen : Except Unit String) (sendOk : Bool)
    (email : String) : Except String Unit × ResetStore :=
  match dbRes with
  | .noRows => (Except.ok (), store)
  | .dbError => (Except.error "failed to process request", store)
  | .found _ =>
      match tokenGen with
      | Except.error _ => (Except.error "failed to generate reset token", store)
      | Except.ok tok =>
          let store1 :=
            storeInsert email ⟨tok, email, now + 15 * 60⟩ store
          if sendOk then (Except.ok (), store1)
          else (Except.error "failed to send reset email", storeErase email store1)

/-- `AuthService.ValidateResetToken`: scan the store for an entry whose
token equals the argument; on a match, if `time.Now().After(expiresAt)`
delete the entry and fail `"reset token has expired"`, else return the
email without consuming; no match fails `"invalid reset token"`. -/
def ValidateResetToken (now : Int) (store : ResetStore) (token : String) :
    Except String String × ResetStore :=
  match store.find? (fun p => p.2.token == token) with
  | some (email, rd) =>
      if now > rd.expiresAt then
        (Except.error "reset token has expired", storeErase email store)
      else (Except.ok email, store)
  | none => (Except.error "invalid reset token", store)

/-- External collaborators of `AuthService.ResetPassword`:
the user lookup by email (any scan error, including no rows, collapses
to `"user not found"` in the source), whether
`bcrypt.GenerateFromPassword` succeeds, and whether the `UPDATE` of the
password hash succeeds. -/
structure ResetEnv where
  userByEmail : String → Option User
  hashOk : Bool
  updateOk : Bool

/-- `AuthService.ResetPassword`: validate the token, check the new
password's length, look up the user, hash, update; the store entry is
deleted only after a successful update. -/
def ResetPassword (env : ResetEnv) (now : Int) (store : ResetStore)
    (token newPassword : String) : Except String Unit × ResetStore :=
  match ValidateResetToken now store token with
  | (Except.error e, store1) => (Except.error e, store1)
  | (Except.ok email, store1) =>
      if newPassword.utf8ByteSize < 8 then
        (Except.error "password must be at least 8 characters", store1)
      else
        match env.userByEmail email with
        | none => (Except.error "user not found", store1)
        | some _ =>
            if env.hashOk then
              if env.updateOk then (Except.ok (), storeErase email store1)
              else (Except.error "failed to update password", store1)
            else (Except.error "failed to process password", store1)

/-- Database insert failures seen by `RegisterUser`: the source does not
distinguish them (`if err != nil` once). -/
inductive InsertError where
  | duplicateKey
  | internalError
deriving DecidableEq

/-- `AuthService.RegisterUser`: password length check, hash, insert; any
insert error becomes `"username or email already exists"`.  The returned
`models.User` has the zero-valued hash field and `IsAdmin = false`. -/
def RegisterUser (req : RegisterRequest) (hashOk : Bool)
    (insert : Except InsertError Int) : Except String User :=
  if req.password.utf8ByteSize < 8 then
    Except.error "password must be at least 8 characters"
  else if ¬ hashOk then Except.error "failed to process registration"
  else
    match insert with
    | Except.error _ => Except.error "username or email already exists"
    | Except.ok id =>
        Except.ok { id := id, username := req.username, email := req.email,
                    passwordHash := "", isAdmin := false }

/-- A JSON HTTP reply as produced by the fiber controllers: status code,
the `error` flag, and the body's message field (for the successful
validate-reset-token reply, the body's `email` field). -/
structure HttpResponse where
  status : Nat
  isError : Bool
  message : String
deriving DecidableEq

/-- `AuthController.ValidateResetToken` (GET /auth/validate-reset-token):
missing token is 400; any service failure collapses to the generic 400
`"Invalid or expired reset token"`; success is 200 with the email. -/
def controllerValidateResetToken (now : Int) (store : ResetStore)
    (token : String) : HttpResponse × ResetStore :=
  if token = "" then
    (⟨400, true, "Reset token is required"⟩, store)
  else
    match ValidateResetToken now store token with
    | (Except.error _, store1) =>
        (⟨400, true, "Invalid or expired reset token"⟩, store1)
    | (Except.ok email, store1) => (⟨200, false, email⟩, store1)

/-- Body of POST /auth/reset-password. -/
structure ResetPasswordRequest where
  token : String
  newPassword : String
  confirmPassword : String
deriving DecidableEq

/-- `AuthController.ResetPassword` (POST /auth/reset-password): field
presence, match and length checks, then the service call; a service
error is returned to the client verbatim (`"message": err.Error()`). -/
def controllerResetPassword (env : ResetEnv) (now : Int) (store : ResetStore)
    (req : ResetPasswordRequest) : HttpResponse × ResetStore :=
  if req.token = "" ∨ req.newPassword = "" ∨ req.confirmPassword = "" then
    (⟨400, true, "All fields are required"⟩, store)
  else if req.newPassword ≠ req.confirmPassword then
    (⟨400, true, "Passwords do not match"⟩, store)
  else if req.newPassword.utf8ByteSize < 8 then
    (⟨400, true, "Password must be at least 8 characters long"⟩, store)
  else
    match ResetPassword env now store req.token req.newPassword with
    | (Except.error e, store1) => (⟨400, true, e⟩, store1)
    | (Except.ok _, store1) =>
        (⟨200, false,
          "Password reset successful. Please login with your new password."⟩,
         store1)

/-- Outcome of a middleware stage: an early JSON rejection, or
continuation with the identity values stored in the request context. -/
inductive MwResult where
  | reject (status : Nat) (message : String)
  | proceed (userId : Int) (username : String) (isAdmin : Bool)
deriving DecidableEq

/-- `strings.Split(s, " ")` on the character list: split at every
single space, keeping empty fields (Go semantics). -/
def splitCharsOnSpace : List Char → List (List Char)
  | [] => [[]]
  | c :: rest =>
      if c = ' ' then [] :: splitCharsOnSpace rest
      else
        match splitCharsOnSpace rest with
        | [] => [[c]]
        | h :: t => (c :: h) :: t

/-- `strings.Split(s, " ")`. -/
def splitBySpace (s : String) : List String :=
  (splitCharsOnSpace s.data).map (fun cs => String.mk cs)

/-- `claims["username"].(string)` with the Go zero value on failure. -/
def claimUsername (claims : MapClaims) : String :=
  match lookupClaim "username" claims with
  | some (.jstr s) => s
  | _ => ""

/-- `claims["is_admin"].(bool)` with the Go zero value on failure. -/
def claimIsAdmin (claims : MapClaims) : Bool :=
  match lookupClaim "is_admin" claims with
  | some (.jbool b) => b
  | _ => false

/-- `middleware.AuthMiddleware`.  `parse` models decoding of the compact
JWT string back into the symbolic token (`none` for a string that is not
a well-formed JWT; such a string makes `jwt.Parse`, and hence
`ValidateToken`, fail).  The `user_id` claim is read as a JSON number
(`.(float64)` in Go source, integral for every issued token) and stored
in the context with `username` and `is_admin`. -/
def AuthMiddleware (secret : String) (now : Int)
    (parse : String → Option SignedToken) (authHeader : String) : MwResult :=
  if authHeader = "" then .reject 401 "Authentication required"
  else
    let parts := splitBySpace authHeader
    if parts.length ≠ 2 ∨ parts.headD "" ≠ "Bearer" then
      .reject 401 "Invalid authorization format"
    else
      match parse (parts.getD 1 "") with
      | none => .reject 401 "Invalid or expired token"
      | some tk =>
          match ValidateToken secret now tk with
          | Except.error _ => .reject 401 "Invalid or expired token"
          | Except.ok claims =>
              match lookupClaim "user_id" claims with
              | some (.jnum uid) =>
                  .proceed uid (claimUsername claims) (claimIsAdmin claims)
              | _ => .reject 401 "Invalid token"

/-- `middleware.AdminMiddleware`, acting on the context values attached
by the base gate (`none` when the base gate did not run). -/
def AdminMiddleware (locals : Option (Int × String × Bool)) : MwResult :=
  match locals with
  | some (uid, un, adm) =>
      if adm then .proceed uid un adm
      else .reject 403 "Admin access required"
  | none => .reject 403 "Admin access required"

/-- Concrete fixtures used by the witness theorems. -/
def user0 : User :=
  { id := 1, username := "alice", email := "alice@x.com",
    passwordHash := "hash1", isAdmin := false }

/-- A reset environment in which every external collaborator succeeds. -/
def envAllOk : ResetEnv :=
  { userByEmail := fun _ => some user0, hashOk := true, updateOk := true }

/-- A reset environment whose database UPDATE fails. -/
def envUpdateFails : ResetEnv :=
  { userByEmail := fun _ => some user0, hashOk := true, updateOk := false }

/-- A store holding one live reset token for bob (expires at 1000). -/
def storeBob : ResetStore := [("bob@x.com", ⟨"tokOld", "bob@x.com", 1000⟩)]

/-- A token decoder serving the fixture token for the string "good". -/
def parseGood : String → Option SignedToken :=
  fun s => if s = "good" then some (GenerateToken "s" 0 user0) else none

/-- An unexpired token signed with HS384 (an HMAC variant the service
never issues) under the service secret "secret". -/
def tokenHS384 : SignedToken :=
  { alg := .HS384, claims := [("exp", .jnum 100)], key := "secret" }

/-! ## Helper lemmas on the reset-token store -/

/-- With no entry matching the token, validation fails generically and
leaves the store unchanged. -/
lemma validateResetToken_find_none {now : Int} {store : ResetStore}
    {token : String} (h : store.find? (fun p => p.2.token == token) = none) :
    ValidateResetToken now store token =
      (Except.error "invalid reset token", store) := by
  simp [ValidateResetToken, h]

/-- A matched but expired entry is deleted and validation fails. -/
lemma validateResetToken_expired {now : Int} {store : ResetStore}
    {token em : String} {rd : PasswordResetToken}
    (h : store.find? (fun p => p.2.token == token) = some (em, rd))
    (hx : now > rd.expiresAt) :
    ValidateResetToken now store token =
      (Except.error "reset token has expired", storeErase em store) := by
  simp [ValidateResetToken, h, hx]

/-- A matched live entry validates to its email without store change. -/
lemma validateResetToken_live {now : Int} {store : ResetStore}
    {token em : String} {rd : PasswordResetToken}
    (h : store.find? (fun p => p.2.token == token) = some (em, rd))
    (hx : ¬ now > rd.expiresAt) :
    ValidateResetToken now store token = (Except.ok em, store) := by
  simp [ValidateResetToken, h, hx]

/-! ## Claim theorems -/

/-- C1: a login whose user lookup finds no row and a login whose bcrypt
verification fails both return exactly `Except.error "authorization
failed"`, which carries no token and no user. -/
theorem C1_login_failures_identical (secret : String) (now : Int)
    (verify : String → String → Bool) (db : List User) (req : LoginRequest) :
    (findUserByUsernameOrEmail db req.username = none →
       LoginUser secret now verify db req =
         Except.error "authorization failed") ∧
    (∀ u, findUserByUsernameOrEmail db req.username = some u →
       verify u.passwordHash req.password = false →
       LoginUser secret now verify db req =
         Except.error "authorization failed") := by
  constructor
  · intro h
    simp [LoginUser, h]
  · intro u hu hv
    simp [LoginUser, hu, hv]

/-- Witness for C1: concrete nonexistent user and wrong password both
yield the generic error. -/
theorem C1_login_failures_identical_witness :
    LoginUser "s" 0 (fun h p => h == p) [user0] ⟨"ghost", "pw"⟩ =
      Except.error "authorization failed" ∧
    LoginUser "s" 0 (fun h p => h == p) [user0] ⟨"alice", "wrong"⟩ =
      Except.error "authorization failed" := by
  constructor
  · exact (C1_login_failures_identical "s" 0 (fun h p => h == p) [user0]
      ⟨"ghost", "pw"⟩).1 (by decide)
  · exact (C1_login_failures_identical "s" 0 (fun h p => h == p) [user0]
      ⟨"alice", "wrong"⟩).2 user0 (by decide) (by decide)

/-- C6 counterexample: with the store holding only alice, a login for
"ghost" finds no user and performs zero hasher invocations (the claim
asserts the hasher is invoked on the not-found path), returning the
generic error before any verification. -/
theorem C6_counterexample :
    findUserByUsernameOrEmail [user0]
        (LoginRequest.mk "ghost" "pw").username = none ∧
    LoginUserHasherCalls [user0] ⟨"ghost", "pw"⟩ = 0 ∧
    LoginUser "s" 0 (fun h p => h == p) [user0] ⟨"ghost", "pw"⟩ =
      Except.error "authorization failed" := by
  refine ⟨by decide, by decide, rfl⟩

/-- C6 amended: on a failed lookup `LoginUser` returns the generic
error immediately with zero hasher invocations (no dummy-hash
verification occurs); every found-user path invokes the hasher exactly
once. -/
theorem C6_not_found_skips_hasher (secret : String) (now : Int)
    (verify : String → String → Bool) (db : List User) (req : LoginRequest) :
    (findUserByUsernameOrEmail db req.username = none →
       LoginUserHasherCalls db req = 0 ∧
       LoginUser secret now verify db req =
         Except.error "authorization failed") ∧
    (∀ u, findUserByUsernameOrEmail db req.username = some u →
       LoginUserHasherCalls db req = 1) := by
  constructor
  · intro h
    exact ⟨by simp [LoginUserHasherCalls, h], by simp [LoginUser, h]⟩
  · intro u hu
    simp [LoginUserHasherCalls, hu]

/-- Witness for C6's amended theorem at concrete inputs. -/
theorem C6_not_found_skips_hasher_witness :
    (LoginUserHasherCalls [user0] ⟨"ghost", "pw"⟩ = 0 ∧
     LoginUser "s" 0 (fun h p => h == p) [user0] ⟨"ghost", "pw"⟩ =
       Except.error "authorization failed") ∧
    LoginUserHasherCalls [user0] ⟨"alice", "wrong"⟩ = 1 := by
  constructor
  · exact (C6_not_found_skips_hasher "s" 0 (fun h p => h == p) [user0]
      ⟨"ghost", "pw"⟩).1 (by decide)
  · exact (C6_not_found_skips_hasher "s" 0 (fun h p => h == p) [user0]
      ⟨"alice", "wrong"⟩).2 user0 (by decide)

/-- C10: once the password-length check passes and hashing succeeds,
every database insert failure — uniqueness violation or internal error
alike — yields the one conflict message; no separate internal-error
outcome exists on the insert path. -/
theorem C10_insert_errors_collapse (req : RegisterRequest) (e : InsertError)
    (hlen : ¬ req.password.utf8ByteSize < 8) :
    RegisterUser req true (Except.error e) =
      Except.error "username or email already exists" := by
  simp [RegisterUser, hlen]

/-- Witness for C10: a non-duplicate internal database error still
reports the duplicate-key conflict message. -/
theorem C10_insert_errors_collapse_witness :
    RegisterUser ⟨"alice", "alice@x.com", "password1"⟩ true
        (Except.error InsertError.internalError) =
      Except.error "username or email already exists" :=
  C10_insert_errors_collapse ⟨"alice", "alice@x.com", "password1"⟩
    InsertError.internalError (by decide)

/-- C4: an issued token carries the claims `user_id`, `username`,
`is_admin`, `iat = now` and `exp = now + 7 days`; validating it
immediately succeeds with exactly those claims; validating at any time
strictly past the 7-day expiry fails with the validator's expired/invalid
error. -/
theorem C4_token_claims_and_expiry (secret : String) (now t : Int) (u : User) :
    lookupClaim "user_id" (GenerateToken secret now u).claims =
      some (.jnum u.id) ∧
    lookupClaim "username" (GenerateToken secret now u).claims =
      some (.jstr u.username) ∧
    lookupClaim "is_admin" (GenerateToken secret now u).claims =
      some (.jbool u.isAdmin) ∧
    lookupClaim "iat" (GenerateToken secret now u).claims =
      some (.jnum now) ∧
    lookupClaim "exp" (GenerateToken secret now u).claims =
      some (.jnum (now + sevenDays)) ∧
    ValidateToken secret now (GenerateToken secret now u) =
      Except.ok (GenerateToken secret now u).claims ∧
    (t > now + sevenDays →
       ValidateToken secret t (GenerateToken secret now u) =
         Except.error "invalid or expired token") := by
  have halg : (GenerateToken secret now u).alg.isHMAC = true := rfl
  have hkey : (GenerateToken secret now u).key = secret := rfl
  have hexp : lookupClaim "exp" (GenerateToken secret now u).claims =
      some (JValue.jnum (now + sevenDays)) := rfl
  refine ⟨rfl, rfl, rfl, rfl, rfl, ?_, ?_⟩
  · have hlt : now < now + sevenDays := by simp [sevenDays]
    have hng : ¬ now > now + sevenDays := by omega
    simp [ValidateToken, jwtParse, halg, hkey, hexp, hlt, hng]
  · intro ht
    have hnlt : ¬ t < now + sevenDays := by omega
    simp [ValidateToken, jwtParse, halg, hkey, hexp, hnlt]

/-- Witness for C4: the fixture token validates at issue time and fails
one second after its 7-day expiry. -/
theorem C4_token_claims_and_expiry_witness :
    ValidateToken "s" 0 (GenerateToken "s" 0 user0) =
      Except.ok (GenerateToken "s" 0 user0).claims ∧
    ValidateToken "s" 604801 (GenerateToken "s" 0 user0) =
      Except.error "invalid or expired token" := by
  refine ⟨(C4_token_claims_and_expiry "s" 0 604801 user0).2.2.2.2.2.1,
    (C4_token_claims_and_expiry "s" 0 604801 user0).2.2.2.2.2.2 ?_⟩
  simp [sevenDays]

/-- C5 counterexample: an unexpired token signed with HS384 — an
algorithm different from the HS256 variant the service signs with — and
the correct secret is accepted by `ValidateToken`, so the validator does
not reject every token signed with an algorithm other than the
configured HMAC variant. -/
theorem C5_counterexample :
    tokenHS384.alg ≠ (GenerateToken "secret" 0 user0).alg ∧
    ValidateToken "secret" 0 tokenHS384 = Except.ok tokenHS384.claims := by
  exact ⟨by decide, rfl⟩

/-- C5 amended: `ValidateToken` rejects any token whose signing method
is outside the HMAC family (HS256/HS384/HS512 are all accepted given the
right secret), rejects a wrong signature, and never yields claims for an
expired token; moreover the service's own `exp` re-check rejects expired
tokens even under a signing library that does not validate expiry. -/
theorem C5_hmac_family_and_exp_recheck (secret : String) (now : Int)
    (t : SignedToken) :
    (t.alg.isHMAC = false →
       ValidateToken secret now t = Except.error "invalid or expired token") ∧
    (t.key ≠ secret →
       ValidateToken secret now t = Except.error "invalid or expired token") ∧
    (∀ e : Int, lookupClaim "exp" t.claims = some (.jnum e) → now > e →
       ValidateToken secret now t = Except.error "invalid or expired token") ∧
    (∀ e : Int, lookupClaim "exp" t.claims = some (.jnum e) → now > e →
       t.alg.isHMAC = true → t.key = secret →
       ValidateTokenNoLibExp secret now t =
         Except.error "token has expired") := by
  refine ⟨?_, ?_, ?_, ?_⟩
  · intro h
    simp [ValidateToken, jwtParse, h]
  · intro h
    cases halg : t.alg.isHMAC with
    | false => simp [ValidateToken, jwtParse, halg]
    | true => simp [ValidateToken, jwtParse, halg, h]
  · intro e hexp hgt
    cases halg : t.alg.isHMAC with
    | false => simp [ValidateToken, jwtParse, halg]
    | true =>
        by_cases hkey : t.key = secret
        · have hnlt : ¬ now < e := by omega
          simp [ValidateToken, jwtParse, halg, hkey, hexp, hnlt]
        · simp [ValidateToken, jwtParse, halg, hkey]
  · intro e hexp hgt halg hkey
    simp [ValidateTokenNoLibExp, halg, hkey, hexp, hgt]

/-- Witness for C5's amended theorem: a non-HMAC token, a wrong-key
token and an expired token all fail, and the independent re-check alone
catches the expired one. -/
theorem C5_hmac_family_and_exp_recheck_witness :
    ValidateToken "secret" 0 ⟨.RS256, [], "secret"⟩ =
      Except.error "invalid or expired token" ∧
    ValidateToken "secret" 0 ⟨.HS256, [], "other"⟩ =
      Except.error "invalid or expired token" ∧
    ValidateToken "secret" 200 ⟨.HS256, [("exp", .jnum 100)], "secret"⟩ =
      Except.error "invalid or expired token" ∧
    ValidateTokenNoLibExp "secret" 200 ⟨.HS256, [("exp", .jnum 100)], "secret"⟩ =
      Except.error "token has expired" := by
  refine ⟨(C5_hmac_family_and_exp_recheck "secret" 0
      ⟨.RS256, [], "secret"⟩).1 rfl,
    (C5_hmac_family_and_exp_recheck "secret" 0
      ⟨.HS256, [], "other"⟩).2.1 (by decide),
    (C5_hmac_family_and_exp_recheck "secret" 200
      ⟨.HS256, [("exp", .jnum 100)], "secret"⟩).2.2.1 100 rfl (by decide),
    (C5_hmac_family_and_exp_recheck "secret" 200
      ⟨.HS256, [("exp", .jnum 100)], "secret"⟩).2.2.2 100 rfl (by decide)
      rfl rfl⟩

/-- After erasing the entries keyed by `email`, no remaining entry holds
token `t1`, provided every entry under a different key held a different
token. -/
lemma find_token_none_after_erase (store : ResetStore) (email t1 : String)
    (h : ∀ p ∈ store, p.1 ≠ email → p.2.token ≠ t1) :
    (storeErase email store).find? (fun p => p.2.token == t1) = none := by
  rw [List.find?_eq_none]
  intro p hp
  simp only [storeErase, List.mem_filter, bne_iff_ne, ne_eq] at hp
  simp [h p hp.1 hp.2]

/-- C2: with a live reset entry for `email` holding `t1`, a second
`RequestPasswordReset` for the same email that stores a fresh `t2`
overwrites the entry, after which validating `t1` fails as an invalid
token — only the newest token for the email resolves.  (The hypothesis
on the other entries says no unrelated email happens to hold the same
token string.) -/
theorem C2_reissue_unresolves_old_token (store : ResetStore) (now now2 : Int)
    (email t1 t2 : String) (rd : PasswordResetToken) (u : User)
    (store2 : ResetStore)
    (hfind : store.find? (fun p => p.2.token == t1) = some (email, rd))
    (hlive : ¬ now2 > rd.expiresAt)
    (hne : t1 ≠ t2)
    (hothers : ∀ p ∈ store, p.1 ≠ email → p.2.token ≠ t1)
    (hreq : RequestPasswordReset store now (DbResult.found u)
        (Except.ok t2) true email = (Except.ok (), store2)) :
    (ValidateResetToken now2 store t1).1 = Except.ok email ∧
    storeLookup email store2 = some ⟨t2, email, now + 15 * 60⟩ ∧
    (ValidateResetToken now2 store2 t1).1 =
      Except.error "invalid reset token" := by
  have hstore2 : store2 =
      storeInsert email ⟨t2, email, now + 15 * 60⟩ store := by
    simpa [RequestPasswordReset] using hreq.symm
  refine ⟨?_, ?_, ?_⟩
  · rw [validateResetToken_live hfind hlive]
  · rw [hstore2]
    simp [storeLookup, storeInsert]
  · have hnone : store2.find? (fun p => p.2.token == t1) = none := by
      rw [hstore2, storeInsert]
      rw [List.find?_cons_of_neg]
      · exact find_token_none_after_erase store email t1 hothers
      · simpa using (Ne.symm hne)
    rw [validateResetToken_find_none hnone]

/-- Witness for C2: reissuing bob's reset token replaces "tokOld" with
"tokNew"; the old token validated before and no longer validates. -/
theorem C2_reissue_unresolves_old_token_witness :
    (ValidateResetToken 10 storeBob "tokOld").1 = Except.ok "bob@x.com" ∧
    storeLookup "bob@x.com" [("bob@x.com", ⟨"tokNew", "bob@x.com", 900⟩)] =
      some ⟨"tokNew", "bob@x.com", (0 : Int) + 15 * 60⟩ ∧
    (ValidateResetToken 10 [("bob@x.com", ⟨"tokNew", "bob@x.com", 900⟩)]
        "tokOld").1 = Except.error "invalid reset token" :=
  C2_reissue_unresolves_old_token storeBob 0 10 "bob@x.com" "tokOld" "tokNew"
    ⟨"tokOld", "bob@x.com", 1000⟩ user0
    [("bob@x.com", ⟨"tokNew", "bob@x.com", 900⟩)]
    (by decide) (by decide) (by decide) (by decide) rfl

/-- C3: `ResetPassword` changes the store only in two ways — an error
outcome leaves the store untouched unless the failure is the
expiry-triggered deletion inside validation (which erases exactly the
matched email), and a success outcome erases exactly the matched
email's entry after the password update; every other failure (short
password, user lookup, hashing, database update) preserves the store, so
the live token stays usable for retry. -/
theorem C3_store_changes_only_on_success_or_expiry (env : ResetEnv)
    (now : Int) (store : ResetStore) (token pw : String) :
    (∀ e store', ResetPassword env now store token pw =
        (Except.error e, store') →
        store' = store ∨
        (e = "reset token has expired" ∧ ∃ em rd,
          store.find? (fun p => p.2.token == token) = some (em, rd) ∧
          now > rd.expiresAt ∧ store' = storeErase em store)) ∧
    (∀ store', ResetPassword env now store token pw =
        (Except.ok (), store') →
        ∃ em rd,
          store.find? (fun p => p.2.token == token) = some (em, rd) ∧
          ¬ now > rd.expiresAt ∧ store' = storeErase em store) := by
  cases hfind : store.find? (fun p => p.2.token == token) with
  | none =>
      have hv := @validateResetToken_find_none now store token hfind
      constructor
      · intro e store' h
        simp only [ResetPassword, hv] at h
        rw [Prod.mk.injEq] at h
        exact Or.inl h.2.symm
      · intro store' h
        simp only [ResetPassword, hv] at h
        rw [Prod.mk.injEq] at h
        exact absurd h.1 (by simp)
  | some pair =>
      obtain ⟨em, rd⟩ := pair
      by_cases hx : now > rd.expiresAt
      · have hv := validateResetToken_expired hfind hx
        constructor
        · intro e store' h
          simp only [ResetPassword, hv] at h
          rw [Prod.mk.injEq] at h
          refine Or.inr ⟨by simpa using h.1.symm, em, rd, rfl, hx, h.2.symm⟩
        · intro store' h
          simp only [ResetPassword, hv] at h
          rw [Prod.mk.injEq] at h
          exact absurd h.1 (by simp)
      · have hv := validateResetToken_live hfind hx
        constructor
        · intro e store' h
          simp only [ResetPassword, hv] at h
          by_cases hlen : pw.utf8ByteSize < 8
          · simp only [if_pos hlen, Prod.mk.injEq] at h
            exact Or.inl h.2.symm
          · simp only [if_neg hlen] at h
            cases hu : env.userByEmail em with
            | none =>
                simp only [hu, Prod.mk.injEq] at h
                exact Or.inl h.2.symm
            | some w =>
                simp only [hu] at h
                by_cases hh : env.hashOk
                · by_cases hup : env.updateOk
                  · simp only [if_pos hh, if_pos hup, Prod.mk.injEq] at h
                    exact absurd h.1 (by simp)
                  · simp only [if_pos hh, if_neg hup, Prod.mk.injEq] at h
                    exact Or.inl h.2.symm
                · simp only [if_neg hh, Prod.mk.injEq] at h
                  exact Or.inl h.2.symm
        · intro store' h
          simp only [ResetPassword, hv] at h
          refine ⟨em, rd, rfl, hx, ?_⟩
          by_cases hlen : pw.utf8ByteSize < 8
          · simp only [if_pos hlen, Prod.mk.injEq] at h
            exact absurd h.1 (by simp)
          · simp only [if_neg hlen] at h
            cases hu : env.userByEmail em with
            | none =>
                simp only [hu, Prod.mk.injEq] at h
                exact absurd h.1 (by simp)
            | some w =>
                simp only [hu] at h
                by_cases hh : env.hashOk
                · by_cases hup : env.updateOk
                  · simp only [if_pos hh, if_pos hup, Prod.mk.injEq] at h
                    exact h.2.symm
                  · simp only [if_pos hh, if_neg hup, Prod.mk.injEq] at h
                    exact absurd h.1 (by simp)
                · simp only [if_neg hh, Prod.mk.injEq] at h
                  exact absurd h.1 (by simp)

/-- Witness for C3: a failing database update on bob's live token
leaves the store exactly as it was. -/
theorem C3_store_changes_only_on_success_or_expiry_witness :
    storeBob = storeBob ∨
    ("failed to update password" = "reset token has expired" ∧ ∃ em rd,
      storeBob.find? (fun p => p.2.token == "tokOld") = some (em, rd) ∧
      (10 : Int) > rd.expiresAt ∧ storeBob = storeErase em storeBob) :=
  (C3_store_changes_only_on_success_or_expiry envUpdateFails 10 storeBob
    "tokOld" "password1").1 "failed to update password" storeBob rfl

/-- C7 counterexample: on the reset-password endpoint an expired token
and an unknown token produce different client-visible messages (the
controller returns the service error verbatim), so the claimed absence
of a caller-visible distinction on that endpoint is false. -/
theorem C7_counterexample :
    (controllerResetPassword envAllOk 2000 storeBob
        ⟨"tokOld", "password1", "password1"⟩).1.message =
      "reset token has expired" ∧
    (controllerResetPassword envAllOk 2000 storeBob
        ⟨"unknown", "password1", "password1"⟩).1.message =
      "invalid reset token" ∧
    "reset token has expired" ≠ "invalid reset token" := by
  exact ⟨rfl, rfl, by decide⟩

/-- C7 amended: the validate-reset-token endpoint collapses every
service failure (expired or not-found) into the single generic 400
"Invalid or expired reset token", but the reset-password endpoint
returns the service's error message verbatim, so there the expired and
unknown cases remain distinguishable. -/
theorem C7_validate_collapses_reset_leaks (env : ResetEnv) (now : Int)
    (store : ResetStore) (token pw e : String) (store1 : ResetStore)
    (htok : token ≠ "") (hpw : pw ≠ "") (hlen : ¬ pw.utf8ByteSize < 8)
    (hv : ValidateResetToken now store token = (Except.error e, store1)) :
    (controllerValidateResetToken now store token).1 =
      ⟨400, true, "Invalid or expired reset token"⟩ ∧
    (controllerResetPassword env now store ⟨token, pw, pw⟩).1 =
      ⟨400, true, e⟩ := by
  constructor
  · simp [controllerValidateResetToken, htok, hv]
  · simp [controllerResetPassword, htok, hpw, hlen, ResetPassword, hv]

/-- Witness for C7's amended theorem on an unknown token. -/
theorem C7_validate_collapses_reset_leaks_witness :
    (controllerValidateResetToken 2000 storeBob "unknown").1 =
      ⟨400, true, "Invalid or expired reset token"⟩ ∧
    (controllerResetPassword envAllOk 2000 storeBob
        ⟨"unknown", "password1", "password1"⟩).1 =
      ⟨400, true, "invalid reset token"⟩ :=
  C7_validate_collapses_reset_leaks envAllOk 2000 storeBob "unknown"
    "password1" "invalid reset token" storeBob
    (by decide) (by decide) (by decide) rfl

/-- C8: the request gates behave as the specified state machine — a
missing Authorization header, a header that is not exactly
`Bearer <token>`, and a token that fails validation each reject with
401; a token whose claims validate and carry a numeric `user_id`
attaches `user_id`, `username` and `is_admin` to the context and
continues; and on admin routes the admin gate rejects with 403 exactly
when `is_admin` is false and continues when it is true. -/
theorem C8_middleware_state_machine (secret : String) (now : Int)
    (parse : String → Option SignedToken) (authHeader : String) :
    (authHeader = "" →
       AuthMiddleware secret now parse authHeader =
         .reject 401 "Authentication required") ∧
    (authHeader ≠ "" →
       ((splitBySpace authHeader).length ≠ 2 ∨
          (splitBySpace authHeader).headD "" ≠ "Bearer") →
       AuthMiddleware secret now parse authHeader =
         .reject 401 "Invalid authorization format") ∧
    (∀ ts, splitBySpace authHeader = ["Bearer", ts] →
       (parse ts = none →
          AuthMiddleware secret now parse authHeader =
            .reject 401 "Invalid or expired token") ∧
       (∀ tk e, parse ts = some tk →
          ValidateToken secret now tk = Except.error e →
          AuthMiddleware secret now parse authHeader =
            .reject 401 "Invalid or expired token") ∧
       (∀ tk claims uid, parse ts = some tk →
          ValidateToken secret now tk = Except.ok claims →
          lookupClaim "user_id" claims = some (.jnum uid) →
          AuthMiddleware secret now parse authHeader =
            .proceed uid (claimUsername claims) (claimIsAdmin claims))) ∧
    (∀ uid un, AdminMiddleware (some (uid, un, false)) =
       .reject 403 "Admin access required") ∧
    (∀ uid un, AdminMiddleware (some (uid, un, true)) =
       .proceed uid un true) := by
  refine ⟨?_, ?_, ?_, ?_, ?_⟩
  · intro h
    simp [AuthMiddleware, h]
  · intro hne hbad
    simp only [AuthMiddleware, if_neg hne]
    rw [if_pos hbad]
  · intro ts hsplit
    have hne : authHeader ≠ "" := by
      intro h0
      rw [h0, show splitBySpace "" = [""] from rfl] at hsplit
      simp at hsplit
    refine ⟨?_, ?_, ?_⟩
    · intro hp
      simp [AuthMiddleware, hne, hsplit, hp]
    · intro tk e hp hv
      simp [AuthMiddleware, hne, hsplit, hp, hv]
    · intro tk claims uid hp hv hid
      simp [AuthMiddleware, hne, hsplit, hp, hv, hid]
  · intro uid un
    simp [AdminMiddleware]
  · intro uid un
    simp [AdminMiddleware]

/-- Witness for C8: all five middleware outcomes at concrete requests,
using the fixture decoder and alice's issued token. -/
theorem C8_middleware_state_machine_witness :
    AuthMiddleware "s" 0 parseGood "" =
      .reject 401 "Authentication required" ∧
    AuthMiddleware "s" 0 parseGood "Token good" =
      .reject 401 "Invalid authorization format" ∧
    AuthMiddleware "s" 0 parseGood "Bearer bad" =
      .reject 401 "Invalid or expired token" ∧
    AuthMiddleware "s" 0 parseGood "Bearer good" =
      .proceed 1 "alice" false ∧
    AdminMiddleware (some (1, "alice", false)) =
      .reject 403 "Admin access required" ∧
    AdminMiddleware (some (1, "alice", true)) = .proceed 1 "alice" true := by
  refine ⟨(C8_middleware_state_machine "s" 0 parseGood "").1 rfl,
    (C8_middleware_state_machine "s" 0 parseGood "Token good").2.1
      (by decide) (Or.inr (by decide)),
    ((C8_middleware_state_machine "s" 0 parseGood "Bearer bad").2.2.1
      "bad" (by decide)).1 rfl,
    ((C8_middleware_state_machine "s" 0 parseGood "Bearer good").2.2.1
      "good" (by decide)).2.2 (GenerateToken "s" 0 user0)
      (GenerateToken "s" 0 user0).claims 1 rfl rfl rfl,
    (C8_middleware_state_machine "s" 0 parseGood "x").2.2.2.1 1 "alice",
    (C8_middleware_state_machine "s" 0 parseGood "x").2.2.2.2 1 "alice"⟩

end TuneTudo
